import Mathlib

set_option maxRecDepth 100000

/-!
Shallow embedding of the Rock-Paper-Scissors game core (`src/game.py`,
`src/bot.py`).  Python floats are modelled as exact rationals (every
constant the update rules use — 0.01, 0.001, 0.999 — is an exact decimal,
so the order comparisons and clamps the claims talk about are faithfully
captured).  Python `int` scores are modelled as `Int`.  Code that raises
an exception is modelled with `Except`: the source raises before any
assignment to `self`, so a call that raises leaves every object as it
was, which the functional embedding renders by returning no new state.
-/

namespace RPS

/-- `RPSMove` enumeration from `game.py` (values "R", "P", "S", ""). -/
inductive RPSMove where
  | ROCK
  | PAPER
  | SCISSORS
  | NONE
  deriving DecidableEq, Repr

/-- `.value` of each `RPSMove` member. -/
def RPSMove.value : RPSMove → String
  | .ROCK => "R"
  | .PAPER => "P"
  | .SCISSORS => "S"
  | .NONE => ""

/-- `GameStatus` enumeration from `game.py`. -/
inductive GameStatus where
  | PENDING
  | WIN
  | LOSS
  | DRAW
  deriving DecidableEq, Repr

/-- `RoundResult` enumeration from `game.py`. -/
inductive RoundResult where
  | WIN
  | LOSS
  | TIE
  | NONE
  deriving DecidableEq, Repr

/-- `get_move_result` from `game.py`: TIE on equal moves, else the
player wins exactly on the three listed beating pairs, else LOSS. -/
def get_move_result (player_move : RPSMove) (bot_move : RPSMove) : RoundResult :=
  if player_move = bot_move then .TIE
  else if (player_move = .ROCK ∧ bot_move = .SCISSORS)
       ∨ (player_move = .PAPER ∧ bot_move = .ROCK)
       ∨ (player_move = .SCISSORS ∧ bot_move = .PAPER) then .WIN
  else .LOSS

/-- A round record: `(player_move, bot_move, round_result)`. -/
abbrev RoundRecord := RPSMove × RPSMove × RoundResult

/-- `GameState` dataclass from `game.py` with its default field values. -/
structure GameState where
  player_score : Int := 0
  bot_score : Int := 0
  turn : Int := 1
  history : List RoundRecord := []
  status : GameStatus := .PENDING
  deriving DecidableEq, Repr

/-- `GameState.update_score`: WIN bumps the player and floors the bot's
score at 0, LOSS symmetrically; the turn counter always advances. -/
def update_score (st : GameState) (round_result : RoundResult) : GameState :=
  let st' :=
    if round_result = .WIN then
      { st with player_score := st.player_score + 1
                bot_score := max 0 (st.bot_score - 1) }
    else if round_result = .LOSS then
      { st with player_score := max 0 (st.player_score - 1)
                bot_score := st.bot_score + 1 }
    else st
  { st' with turn := st'.turn + 1 }

/-- `GameState.add_to_history`: append one record. -/
def add_to_history (st : GameState) (player_move bot_move : RPSMove)
    (round_result : RoundResult) : GameState :=
  { st with history := st.history ++ [(player_move, bot_move, round_result)] }

/-- `GameState.get_last_round`: the source indexes `history[-1]` with no
guard, so a total embedding returns the last record as an `Option`. -/
def get_last_round (st : GameState) : Option RoundRecord :=
  st.history.getLast?

/-- `GameState.is_finished`. -/
def is_finished (st : GameState) : Bool :=
  st.turn = 30 ∨ st.player_score = 10 ∨ st.bot_score = 10

/-- `GameState.update_status`: the `turn == 30` branch is checked first,
then `player_score == 10`, then `bot_score == 10`. -/
def update_status (st : GameState) : GameState :=
  if st.turn = 30 then
    if st.player_score > st.bot_score then { st with status := .WIN }
    else if st.player_score < st.bot_score then { st with status := .LOSS }
    else { st with status := .DRAW }
  else if st.player_score = 10 then { st with status := .WIN }
  else if st.bot_score = 10 then { st with status := .LOSS }
  else st

/-! ### The bot (`src/bot.py`) -/

/-- Error kinds a bot call can raise: `ValueError("Invalid state")` from
`update_transitions`, and the `IndexError` that
`_calculate_stable_distribution` raises when no eigenvalue 1 exists. -/
inductive BotErr where
  | invalidState
  | noStationary
  deriving DecidableEq, Repr

/-- `self.states.index(move)` on the tuple `("R", "P", "S")`, fused with
the `move not in self.states` membership test: `none` exactly when the
symbol is outside the closed set. -/
def stateIndex? (move : String) : Option (Fin 3) :=
  if move = "R" then some 0
  else if move = "P" then some 1
  else if move = "S" then some 2
  else none

/-- The state symbol at an index (`self.states[i]`). -/
def stateName : Fin 3 → String
  | 0 => "R"
  | 1 => "P"
  | 2 => "S"

/-- `np.argmax` on a 3-vector: the first (lowest) index attaining the
maximum. -/
def argmax3 (v : Fin 3 → ℚ) : Fin 3 :=
  if v 0 < v 1 then (if v 1 < v 2 then 2 else 1)
  else (if v 0 < v 2 then 2 else 0)

/-- `RPSBot` dataclass: learning rate (default 0.01), optional current
state, 3×3 transition matrix. -/
structure RPSBot where
  lr : ℚ := 1 / 100
  state : Option (Fin 3) := none
  transitions : Fin 3 → Fin 3 → ℚ
  deriving DecidableEq

/-- `RPSBot.update_transitions`: reject symbols outside the closed set;
with no current state just anchor it; otherwise subtract `lr` from every
entry of the current row flooring at 0.001, then add `3 * lr` to the
entry for the observed transition capping at 0.999, and move the chain
to the new state.  The source raises before any assignment, so the
error case carries no updated bot. -/
def update_transitions (move : String) (bot : RPSBot) : Except BotErr RPSBot :=
  match stateIndex? move with
  | none => .error .invalidState
  | some new_state =>
    match bot.state with
    | none => .ok { bot with state := some new_state }
    | some s =>
      let dec : Fin 3 → ℚ := fun j => max (1 / 1000) (bot.transitions s j - bot.lr)
      let row : Fin 3 → ℚ := fun j =>
        if j = new_state then min (999 / 1000) (dec j + bot.lr * 3) else dec j
      .ok { bot with
              transitions := Function.update bot.transitions s row
              state := some new_state }

/-- 3×3 determinant, used to decide whether 1 is exactly an eigenvalue
of the transposed transition matrix. -/
def det3 (a : Fin 3 → Fin 3 → ℚ) : ℚ :=
  a 0 0 * (a 1 1 * a 2 2 - a 1 2 * a 2 1)
  - a 0 1 * (a 1 0 * a 2 2 - a 1 2 * a 2 0)
  + a 0 2 * (a 1 0 * a 2 1 - a 1 1 * a 2 0)

/-- Cross product of two rows, giving a vector orthogonal to both. -/
def cross3 (a b : Fin 3 → ℚ) : Fin 3 → ℚ
  | 0 => a 1 * b 2 - a 2 * b 1
  | 1 => a 2 * b 0 - a 0 * b 2
  | 2 => a 0 * b 1 - a 1 * b 0

/-- Whether a 3-vector is non-zero somewhere. -/
def nonzero3 (v : Fin 3 → ℚ) : Bool :=
  ¬ (v 0 = 0 ∧ v 1 = 0 ∧ v 2 = 0)

/-- `RPSBot._calculate_stable_distribution`, idealised to exact
arithmetic: the source asks `np.linalg.eig` for the eigen-system of the
transposed matrix, keeps the first eigenvector whose eigenvalue is
(within floating tolerance) 1, takes its real part and divides by its
sum.  Exactly, an eigenvector for eigenvalue 1 exists iff
`det (Tᵀ - I) = 0`, and for a rank-2 `Tᵀ - I` a null vector is the
cross product of two independent rows; the source's `[0][0]` indexing
raises when no such eigenvalue exists, rendered here as `none`.  (A
doubly-degenerate eigenspace, where every cross product vanishes, is
also rendered `none`; no claim exercises that corner.) -/
def stable_distribution? (t : Fin 3 → Fin 3 → ℚ) : Option (Fin 3 → ℚ) :=
  let a : Fin 3 → Fin 3 → ℚ := fun i j => t j i - if i = j then 1 else 0
  if det3 a = 0 then
    let c01 := cross3 (a 0) (a 1)
    let c02 := cross3 (a 0) (a 2)
    let c12 := cross3 (a 1) (a 2)
    let v := if nonzero3 c01 then some c01
             else if nonzero3 c02 then some c02
             else if nonzero3 c12 then some c12
             else none
    match v with
    | none => none
    | some v => some fun i => v i / (v 0 + v 1 + v 2)
  else none

/-- `RPSBot.predict`: with a current state, take the argmax of that row
of the (current, not-yet-updated) matrix and answer with the cyclic
successor `(guess + 1) % 3`; with no current state do the same on the
stationary distribution.  `Fin 3` addition is addition mod 3. -/
def predict (bot : RPSBot) : Except BotErr String :=
  match bot.state with
  | some s => .ok (stateName (argmax3 (bot.transitions s) + 1))
  | none =>
    match stable_distribution? bot.transitions with
    | none => .error .noStationary
    | some d => .ok (stateName (argmax3 d + 1))

/-- `RPSBot.reset_state`: clear the current state, keep the matrix. -/
def reset_state (bot : RPSBot) : RPSBot :=
  { bot with state := none }

/-! ### Weight persistence (`RPSBot.load_weights`)

`load_weights` is one assignment, `self.transitions = np.loadtxt(filepath)`:
no shape validation at all.  `np.loadtxt` is modelled on text sources: skip
blank and `#`-comment lines, split the rest on whitespace, parse every
token as a decimal number, and require all rows to have equal length;
any failure raises (before the assignment, so the old matrix survives). -/

/-- Parse a decimal rational: optional sign, digits, optional fractional
part.  `none` on anything else (the way `np.loadtxt` raises on a token
it cannot convert to a float). -/
def parseDecimal? (s : String) : Option ℚ :=
  let core (cs : List Char) : Option ℚ :=
    let isDig : Char → Bool := fun c => c.isDigit
    let (intPart, rest) := cs.span isDig
    let (fracPart, tail) :=
      match rest with
      | '.' :: more => (more.takeWhile isDig, more.dropWhile isDig)
      | _ => (([] : List Char), rest)
    if intPart.isEmpty ∧ fracPart.isEmpty then none
    else if tail.isEmpty then
      let iv : ℚ := intPart.foldl (fun acc c => acc * 10 + (c.toNat - 48)) 0
      let fv : ℚ := fracPart.foldl (fun acc c => acc * 10 + (c.toNat - 48)) 0
      some (iv + fv / (10 ^ fracPart.length))
    else none
  match s.toList with
  | '-' :: cs => (core cs).map Neg.neg
  | '+' :: cs => core cs
  | cs => core cs

/-- One text line into tokens, whitespace-separated. -/
def tokenize (line : String) : List String :=
  (line.splitOn " ").flatMap (fun w => w.splitOn "\t") |>.filter (· ≠ "")

/-- `np.loadtxt` on the text of the source: the parsed table, or `none`
when parsing fails (bad token or ragged rows). -/
def loadtxt? (src : String) : Option (List (List ℚ)) :=
  let rows := ((src.splitOn "\n").map tokenize).filter
    (fun toks => toks ≠ [] ∧ ¬ (toks.head? = some "#"))
  let parsed := rows.mapM (fun toks => toks.mapM parseDecimal?)
  match parsed with
  | none => none
  | some table =>
    if (table.map List.length).all (fun n => some n = (table.head?).map List.length)
    then some table else none

/-- `RPSBot.load_weights`, at the level of the matrix it replaces: on a
parse failure the exception propagates and the pair keeps the old
matrix; on success the assignment installs whatever table was read —
whatever its shape. -/
def load_weights (src : String) (m : List (List ℚ)) :
    Option Unit × List (List ℚ) :=
  match loadtxt? src with
  | none => (some (), m)
  | some table => (none, table)

/-! ### The game (`src/game.py`, class `RPSGame`) -/

/-- `RPSMove(value)` on the strings `predict` can return. -/
def moveOfValue (s : String) : RPSMove :=
  if s = "R" then .ROCK
  else if s = "P" then .PAPER
  else if s = "S" then .SCISSORS
  else .NONE

/-- The two objects `RPSGame.__init__` creates. -/
structure RPSGame where
  bot : RPSBot
  state : GameState
  deriving DecidableEq

/-- A fresh game around a given initial transition matrix (the source
draws it from `np.random.rand(3, 3)` and row-normalizes). -/
def mkGame (t : Fin 3 → Fin 3 → ℚ) : RPSGame :=
  { bot := { transitions := t }, state := {} }

/-- The initial matrices `__post_init__` can produce: non-negative
entries, each row summing to 1. -/
def RowStochastic (t : Fin 3 → Fin 3 → ℚ) : Prop :=
  (∀ i j, 0 ≤ t i j) ∧ ∀ i, t i 0 + t i 1 + t i 2 = 1

/-- `RPSGame.restart_game`: fresh `GameState`, bot keeps its matrix but
forgets its state. -/
def restart_game (g : RPSGame) : RPSGame :=
  { bot := reset_state g.bot, state := {} }

/-- `RPSGame.calculate_bot_move`: `predict` runs first (and its failure
propagates first), then the model is updated with the player's move;
the prediction therefore only sees the pre-update matrix. -/
def calculate_bot_move (g : RPSGame) (player_move : RPSMove) :
    Except BotErr (RPSMove × RPSGame) :=
  match predict g.bot with
  | .error e => .error e
  | .ok bms =>
    match update_transitions player_move.value g.bot with
    | .error e => .error e
    | .ok bot' => .ok (moveOfValue bms, { g with bot := bot' })

/-- `RPSGame.move`: bot move and model update, then result resolution,
score update, history append, and — only when `is_finished` — status
update (`save_weights` is I/O and does not touch the state).  Returns
the new game and the `GameState` the caller sees. -/
def move (g : RPSGame) (player_move : RPSMove) :
    Except BotErr (RPSGame × GameState) :=
  match calculate_bot_move g player_move with
  | .error e => .error e
  | .ok (bot_move, g1) =>
    let round_result := get_move_result player_move bot_move
    let st1 := update_score g1.state round_result
    let st2 := add_to_history st1 player_move bot_move round_result
    let st3 := if is_finished st2 then update_status st2 else st2
    .ok ({ g1 with state := st3 }, st3)

/-- The games reachable through the public interface: construction with
some row-stochastic random matrix, successful `move` calls, restarts. -/
inductive Reachable : RPSGame → Prop where
  | init (t : Fin 3 → Fin 3 → ℚ) : RowStochastic t → Reachable (mkGame t)
  | step (g g' : RPSGame) (m : RPSMove) (s : GameState) :
      Reachable g → move g m = .ok (g', s) → Reachable g'
  | restart (g : RPSGame) : Reachable g → Reachable (restart_game g)

/-! ### Concrete runs and claim statements -/

instance {ε α : Type} [DecidableEq ε] [DecidableEq α] : DecidableEq (Except ε α)
  | .error e, .error f =>
    if h : e = f then .isTrue (by rw [h]) else .isFalse (by simp [h])
  | .error _, .ok _ => .isFalse (by simp)
  | .ok _, .error _ => .isFalse (by simp)
  | .ok a, .ok b =>
    if h : a = b then .isTrue (by rw [h]) else .isFalse (by simp [h])

/-- A sequence of `move` calls, stopping at the first raised error. -/
def playMoves (g : RPSGame) : List RPSMove → Except BotErr RPSGame
  | [] => .ok g
  | m :: ms =>
    match move g m with
    | .error e => .error e
    | .ok (g', _) => playMoves g' ms

/-- One row-stochastic matrix `np.random.rand` can produce (then
row-normalize): every row is `(1/2, 1/4, 1/4)`. -/
def mat0 : Fin 3 → Fin 3 → ℚ := fun _ j => if j = 0 then 1 / 2 else 1 / 4

/-- Against `mat0` the bot answers PAPER on every round of the runs
below, so ROCK loses and SCISSORS wins: `n` losses then `k` wins. -/
def roundsTrace (n k : Nat) : List RPSMove :=
  List.replicate n RPSMove.ROCK ++ List.replicate k RPSMove.SCISSORS

/-- The game after 20 lost rounds and 9 won rounds: scores (9, 11),
turn 30, status LOSS (first set when the bot reached 10 in round 10). -/
def g29 : RPSGame :=
  ((playMoves (mkGame mat0) (roundsTrace 20 9)).toOption).getD (mkGame mat0)

/-- The game after one more won round: scores (10, 10), turn 31. -/
def g30 : RPSGame :=
  match move g29 .SCISSORS with
  | .ok p => p.1
  | .error _ => mkGame mat0

/-- The game state returned by that 30th round. -/
def s30 : GameState :=
  match move g29 .SCISSORS with
  | .ok p => p.2
  | .error _ => {}

/-- The game after 9 lost rounds (scores (0, 9), turn 10, PENDING). -/
def g9 : RPSGame :=
  ((playMoves (mkGame mat0) (roundsTrace 9 0)).toOption).getD (mkGame mat0)

/-- The game reached by the 10th lost round (bot score 10, LOSS). -/
def g10 : RPSGame :=
  match move g9 .ROCK with
  | .ok p => p.1
  | .error _ => mkGame mat0

/-- The game state returned by that 10th round. -/
def s10 : GameState :=
  match move g9 .ROCK with
  | .ok p => p.2
  | .error _ => {}

/-- A bot anchored at state R over the `mat0` matrix. -/
def botB : RPSBot := { lr := 1 / 100, state := some 0, transitions := mat0 }

/-- A mid-game position with a non-PENDING status. -/
def gA : RPSGame :=
  { bot := botB,
    state := { player_score := 3, bot_score := 2, turn := 7, history := [],
               status := .WIN } }

/-- The game after one more ROCK round from `gA`. -/
def gA' : RPSGame :=
  match move gA .ROCK with
  | .ok p => p.1
  | .error _ => gA

/-- The game state that round returns. -/
def sA : GameState :=
  match move gA .ROCK with
  | .ok p => p.2
  | .error _ => {}

/-- The bot after `botB` observes PAPER. -/
def botB' : RPSBot :=
  match update_transitions "P" botB with
  | .ok b => b
  | .error _ => botB

/-- The bot move `calculate_bot_move` returns from `gA` on ROCK. -/
def bmA : RPSMove :=
  match calculate_bot_move gA .ROCK with
  | .ok p => p.1
  | .error _ => .NONE

/-- The game `calculate_bot_move` returns from `gA` on ROCK. -/
def gA1 : RPSGame :=
  match calculate_bot_move gA .ROCK with
  | .ok p => p.2
  | .error _ => gA

/-- Claim C1 as stated: after any `move` on a reachable game that ends
with the terminal condition true, a score of 10 on either side forces
that side's immediate result, a double non-threshold terminal compares
scores, and DRAW only arises from the turn cap. -/
def ClaimC1 : Prop :=
  ∀ g : RPSGame, Reachable g → ∀ (pm : RPSMove) (g' : RPSGame) (s : GameState),
    move g pm = .ok (g', s) → is_finished s = true →
      (s.player_score = 10 → s.status = .WIN) ∧
      (s.bot_score = 10 → s.status = .LOSS) ∧
      (s.player_score ≠ 10 → s.bot_score ≠ 10 →
        s.status = (if s.bot_score < s.player_score then GameStatus.WIN
          else if s.player_score < s.bot_score then GameStatus.LOSS
          else GameStatus.DRAW)) ∧
      (s.status = .DRAW → s.turn = 30 ∧ s.player_score = s.bot_score)

/-- Claim C2 as stated: a non-PENDING status survives any further
`move` unchanged. -/
def ClaimC2 : Prop :=
  ∀ g : RPSGame, Reachable g → ∀ (pm : RPSMove) (g' : RPSGame) (s : GameState),
    move g pm = .ok (g', s) → g.state.status ≠ .PENDING →
      s.status = g.state.status

/-- A source that parses into exactly 9 floats shaped 3 × 3. -/
def parses3x3 (src : String) : Prop :=
  ∃ table, loadtxt? src = some table ∧ table.length = 3 ∧
    ∀ row ∈ table, row.length = 3

/-- Claim C7 as stated: every import from a source that is not a 3 × 3
float table fails, and the failing import keeps the old matrix. -/
def ClaimC7 : Prop :=
  ∀ (src : String) (m : List (List ℚ)), ¬ parses3x3 src →
    (load_weights src m).1.isSome = true ∧ (load_weights src m).2 = m

/-- Score bookkeeping facts every reachable game satisfies: scores are
non-negative and `p + b + min p b` never exceeds the number of rounds
played (`turn - 1`), because the score sum only grows while the losing
side is pinned at 0. -/
def ScoreInv (st : GameState) : Prop :=
  0 ≤ st.player_score ∧ 0 ≤ st.bot_score ∧
    st.player_score + st.bot_score + min st.player_score st.bot_score
      ≤ st.turn - 1

/-! ### Helper lemmas -/

theorem calculate_bot_move_state (g : RPSGame) (pm : RPSMove) (bm : RPSMove)
    (g1 : RPSGame) (h : calculate_bot_move g pm = .ok (bm, g1)) :
    g1.state = g.state := by
  unfold calculate_bot_move at h
  cases hp : predict g.bot with
  | error e => rw [hp] at h; exact absurd h (by simp)
  | ok bms =>
    rw [hp] at h
    cases hu : update_transitions pm.value g.bot with
    | error e => rw [hu] at h; exact absurd h (by simp)
    | ok bot' =>
      rw [hu] at h
      simp only [Except.ok.injEq, Prod.mk.injEq] at h
      rw [← h.2]

theorem move_ok_shape (g : RPSGame) (pm : RPSMove) (g' : RPSGame) (s : GameState)
    (h : move g pm = .ok (g', s)) :
    ∃ bm : RPSMove,
      (s = if is_finished
              (add_to_history (update_score g.state (get_move_result pm bm))
                pm bm (get_move_result pm bm)) = true
           then update_status
              (add_to_history (update_score g.state (get_move_result pm bm))
                pm bm (get_move_result pm bm))
           else add_to_history (update_score g.state (get_move_result pm bm))
                pm bm (get_move_result pm bm)) ∧
      g'.state = s := by
  unfold move at h
  cases hcb : calculate_bot_move g pm with
  | error e => rw [hcb] at h; exact absurd h (by simp)
  | ok p =>
    obtain ⟨bm, g1⟩ := p
    rw [hcb] at h
    simp only [Except.ok.injEq, Prod.mk.injEq] at h
    refine ⟨bm, ?_, ?_⟩
    · rw [← h.2, calculate_bot_move_state g pm bm g1 hcb]
    · rw [← h.1, ← h.2]

theorem update_status_player_score (st : GameState) :
    (update_status st).player_score = st.player_score := by
  unfold update_status; split_ifs <;> rfl

theorem update_status_bot_score (st : GameState) :
    (update_status st).bot_score = st.bot_score := by
  unfold update_status; split_ifs <;> rfl

theorem update_status_turn (st : GameState) :
    (update_status st).turn = st.turn := by
  unfold update_status; split_ifs <;> rfl

theorem update_status_not_pending (st : GameState)
    (h : is_finished st = true) : (update_status st).status ≠ .PENDING := by
  simp only [is_finished, Bool.or_eq_true, decide_eq_true_eq] at h
  unfold update_status
  split_ifs <;> simp_all

theorem scoreInv_update_score (st : GameState) (rr : RoundResult)
    (h : ScoreInv st) : ScoreInv (update_score st rr) := by
  obtain ⟨h1, h2, h3⟩ := h
  unfold ScoreInv update_score
  split_ifs <;> simp only [] <;> omega

theorem scoreInv_move (g : RPSGame) (pm : RPSMove) (g' : RPSGame)
    (s : GameState) (h : move g pm = .ok (g', s)) (hg : ScoreInv g.state) :
    ScoreInv s := by
  obtain ⟨bm, hs, -⟩ := move_ok_shape g pm g' s h
  have hinv := scoreInv_update_score g.state (get_move_result pm bm) hg
  rw [hs]
  split
  · exact ⟨by rw [update_status_player_score]; exact hinv.1,
      by rw [update_status_bot_score]; exact hinv.2.1,
      by rw [update_status_player_score, update_status_bot_score,
        update_status_turn]; exact hinv.2.2⟩
  · exact hinv

theorem scoreInv_reachable (g : RPSGame) (hg : Reachable g) :
    ScoreInv g.state := by
  induction hg with
  | init t ht => exact ⟨le_refl 0, le_refl 0, by norm_num [mkGame]⟩
  | step g g' m s hr hmv ih =>
    obtain ⟨bm, -, hst⟩ := move_ok_shape g m g' s hmv
    rw [hst]
    exact scoreInv_move g m g' s hmv ih
  | restart g hr ih => exact ⟨le_refl 0, le_refl 0, by norm_num [restart_game]⟩

theorem reachable_playMoves (ms : List RPSMove) (g g' : RPSGame)
    (hg : Reachable g) (h : playMoves g ms = .ok g') : Reachable g' := by
  induction ms generalizing g with
  | nil =>
    unfold playMoves at h
    simp only [Except.ok.injEq] at h
    exact h ▸ hg
  | cons m ms ih =>
    unfold playMoves at h
    cases hmv : move g m with
    | error e => rw [hmv] at h; exact absurd h (by simp)
    | ok p =>
      rw [hmv] at h
      exact ih p.1 (Reachable.step g p.1 m p.2 hg (by rw [hmv])) h

theorem rowStochastic_mat0 : RowStochastic mat0 := by
  constructor
  · intro i j
    unfold mat0
    split <;> norm_num
  · intro i
    unfold mat0
    rw [if_pos rfl, if_neg (by decide), if_neg (by decide)]
    norm_num

/-! ### Claim C1 -/

/-- C1, counterexample to the claim as stated: from a fresh game whose
random matrix came out as `mat0`, play 20 losing rounds (the bot's
score passes 10 and climbs to 20) and then 10 winning rounds.  The
30th round ends with both scores equal to 10 and the terminal
condition true, yet the status is WIN, not the LOSS the clause
"LOSS when opponent_score == 10" demands. -/
theorem c1_counterexample : ¬ ClaimC1 := by
  intro hc
  have hreach : Reachable g29 := by
    refine reachable_playMoves (roundsTrace 20 9) (mkGame mat0) g29
      (Reachable.init mat0 rowStochastic_mat0) ?_
    with_unfolding_all decide
  have hmv : move g29 .SCISSORS = .ok (g30, s30) := by
    with_unfolding_all decide
  have h10 : s30.bot_score = 10 := by with_unfolding_all decide
  have hfin : is_finished s30 = true := by with_unfolding_all decide
  have hwin : s30.status = .WIN := by with_unfolding_all decide
  have := (hc g29 hreach .SCISSORS g30 s30 hmv hfin).2.1 h10
  rw [hwin] at this
  exact absurd this (by decide)

/-- C1 amended: as the claim states it, except that when both scores
are 10 at once (reachable only by playing on after an earlier terminal
state, never at turn 30) the `player_score == 10` WIN branch takes
precedence over the `opponent_score == 10` LOSS branch. -/
theorem c1_terminal_status (g : RPSGame) (hg : Reachable g) (pm : RPSMove)
    (g' : RPSGame) (s : GameState) (h : move g pm = .ok (g', s))
    (hfin : is_finished s = true) :
    (s.player_score = 10 → s.status = .WIN) ∧
    (s.bot_score = 10 → s.player_score ≠ 10 → s.status = .LOSS) ∧
    (s.player_score ≠ 10 → s.bot_score ≠ 10 → s.turn = 30 ∧
      s.status = (if s.bot_score < s.player_score then GameStatus.WIN
        else if s.player_score < s.bot_score then GameStatus.LOSS
        else GameStatus.DRAW)) ∧
    (s.status = .DRAW → s.turn = 30 ∧ s.player_score = s.bot_score) := by
  obtain ⟨bm, hs, -⟩ := move_ok_shape g pm g' s h
  have hinv : ScoreInv (add_to_history
      (update_score g.state (get_move_result pm bm)) pm bm
      (get_move_result pm bm)) :=
    scoreInv_update_score g.state (get_move_result pm bm)
      (scoreInv_reachable g hg)
  cases hfin2 : is_finished (add_to_history
      (update_score g.state (get_move_result pm bm)) pm bm
      (get_move_result pm bm)) with
  | false =>
    rw [hfin2] at hs
    simp only [Bool.false_eq_true, if_false] at hs
    rw [hs] at hfin
    rw [hfin] at hfin2
    exact absurd hfin2 (by simp)
  | true =>
    rw [hfin2] at hs
    simp only [if_true] at hs
    simp only [is_finished, Bool.or_eq_true, decide_eq_true_eq] at hfin2
    obtain ⟨hp0, hb0, hsum⟩ := hinv
    rw [hs, update_status_player_score, update_status_bot_score,
      update_status_turn]
    unfold update_status
    split_ifs <;> simp_all <;> omega

/-- C1 witness: the amended theorem applied to the 10th round of the
losing run, where the bot's score first reaches 10: the status resolves
to LOSS. -/
theorem c1_terminal_status_witness : s10.status = .LOSS :=
  (c1_terminal_status g9
    (reachable_playMoves (roundsTrace 9 0) (mkGame mat0) g9
      (Reachable.init mat0 rowStochastic_mat0) (by with_unfolding_all decide))
    .ROCK g10 s10 (by with_unfolding_all decide)
    (by with_unfolding_all decide)).2.1
    (by with_unfolding_all decide) (by with_unfolding_all decide)

/-! ### Claim C2 -/

theorem update_score_status (st : GameState) (rr : RoundResult) :
    (update_score st rr).status = st.status := by
  unfold update_score; split_ifs <;> rfl

theorem is_finished_update_status (st : GameState) :
    is_finished (update_status st) = is_finished st := by
  unfold is_finished
  rw [update_status_player_score, update_status_bot_score, update_status_turn]

/-- C2, counterexample to the claim as stated: in the run behind `g29`
the status was set to LOSS when the bot's score reached 10 in round 10
and is still LOSS after round 29, yet the 30th round (which drives the
player's score to 10) re-assigns it to WIN. -/
theorem c2_counterexample : ¬ ClaimC2 := by
  intro hc
  have hreach : Reachable g29 := by
    refine reachable_playMoves (roundsTrace 20 9) (mkGame mat0) g29
      (Reachable.init mat0 rowStochastic_mat0) ?_
    with_unfolding_all decide
  have hmv : move g29 .SCISSORS = .ok (g30, s30) := by
    with_unfolding_all decide
  have hloss : g29.state.status = .LOSS := by with_unfolding_all decide
  have hwin : s30.status = .WIN := by with_unfolding_all decide
  have := hc g29 hreach .SCISSORS g30 s30 hmv (by rw [hloss]; decide)
  rw [hwin, hloss] at this
  exact absurd this (by decide)

/-- C2 amended: within one game instance the status never returns to
PENDING once set, and it only moves at all when a `move` call ends with
the terminal condition true — but such a later call may re-assign it
(LOSS to WIN in the counterexample), so it is not immutable. -/
theorem c2_status_never_pending (g : RPSGame) (pm : RPSMove)
    (g' : RPSGame) (s : GameState) (h : move g pm = .ok (g', s)) :
    (g.state.status ≠ .PENDING → s.status ≠ .PENDING) ∧
    (is_finished s = false → s.status = g.state.status) := by
  obtain ⟨bm, hs, -⟩ := move_ok_shape g pm g' s h
  cases hfin2 : is_finished (add_to_history
      (update_score g.state (get_move_result pm bm)) pm bm
      (get_move_result pm bm)) with
  | false =>
    rw [hfin2] at hs
    simp only [Bool.false_eq_true, if_false] at hs
    have hst : s.status = g.state.status := by
      rw [hs]
      show (update_score g.state (get_move_result pm bm)).status
        = g.state.status
      exact update_score_status g.state (get_move_result pm bm)
    exact ⟨fun hne => hst ▸ hne, fun _ => hst⟩
  | true =>
    rw [hfin2] at hs
    simp only [if_true] at hs
    constructor
    · intro _
      rw [hs]
      exact update_status_not_pending _ hfin2
    · intro hfin
      rw [hs, is_finished_update_status] at hfin
      rw [hfin] at hfin2
      exact absurd hfin2 (by simp)

/-- C2 witness: the amended theorem at a concrete mid-game position
whose status is WIN; the next round keeps it non-PENDING, and since it
is not terminal the status is unchanged. -/
theorem c2_status_never_pending_witness :
    sA.status ≠ .PENDING ∧ sA.status = gA.state.status := by
  have h := c2_status_never_pending gA .ROCK gA' sA
    (by with_unfolding_all decide)
  exact ⟨h.1 (by with_unfolding_all decide), h.2 (by with_unfolding_all decide)⟩

/-! ### Claim C3 -/

/-- C3: a valid observed move anchors the state without touching the
matrix when no state is set; otherwise row `s` is decayed by `lr` with
floor 0.001, the observed transition cell gets `3·lr` back capped at
0.999, no other row moves, and the state becomes the move's index. -/
theorem c3_update_transitions (bot : RPSBot) (mv : String) (i : Fin 3)
    (s : Fin 3) (hmv : stateIndex? mv = some i) :
    (bot.state = none →
      update_transitions mv bot = .ok { bot with state := some i }) ∧
    (bot.state = some s → ∀ bot', update_transitions mv bot = .ok bot' →
      bot'.state = some i ∧ bot'.lr = bot.lr ∧
      (∀ j, j ≠ i → bot'.transitions s j
        = max (1 / 1000) (bot.transitions s j - bot.lr)) ∧
      bot'.transitions s i
        = min (999 / 1000)
            (max (1 / 1000) (bot.transitions s i - bot.lr) + bot.lr * 3) ∧
      (∀ r, r ≠ s → ∀ j, bot'.transitions r j = bot.transitions r j)) ∧
    (update_transitions mv bot).isOk = true := by
  unfold update_transitions
  rw [hmv]
  refine ⟨fun h => by rw [h], fun h bot' hb => ?_, ?_⟩
  · rw [h] at hb
    simp only [Except.ok.injEq] at hb
    subst hb
    refine ⟨rfl, rfl, fun j hj => ?_, ?_, fun r hr j => ?_⟩
    · simp only [Function.update_same, if_neg hj]
    · simp [Function.update_same]
    · simp only [Function.update_noteq hr]
  · cases bot.state <;> rfl

/-- C3 witness: the theorem at the concrete bot `botB` (anchored at R)
observing PAPER, with every argument instantiated: the row-0 entries
follow the decay/reinforce formulas, row 1 is untouched, and the state
moves to P. -/
theorem c3_update_transitions_witness :
    botB'.state = some 1 ∧ botB'.lr = botB.lr ∧
    botB'.transitions 0 0 = max (1 / 1000) (botB.transitions 0 0 - botB.lr) ∧
    botB'.transitions 0 1
      = min (999 / 1000)
          (max (1 / 1000) (botB.transitions 0 1 - botB.lr) + botB.lr * 3) ∧
    botB'.transitions 1 2 = botB.transitions 1 2 := by
  have h := (c3_update_transitions botB "P" 1 0 (by decide)).2.1 rfl botB'
    (by with_unfolding_all decide)
  exact ⟨h.1, h.2.1, h.2.2.1 0 (by decide), h.2.2.2.1,
    h.2.2.2.2 1 (by decide) 2⟩

/-! ### Claim C4 -/

theorem argmax3_le (v : Fin 3 → ℚ) (j : Fin 3) : v j ≤ v (argmax3 v) := by
  unfold argmax3
  split_ifs with h1 h2 h3 <;> fin_cases j <;> simp_all <;> linarith

theorem argmax3_first (v : Fin 3 → ℚ) (j : Fin 3) (h : j < argmax3 v) :
    v j < v (argmax3 v) := by
  unfold argmax3 at h ⊢
  split_ifs at h ⊢ with h1 h2 h3 <;> fin_cases j <;>
    simp_all [Fin.lt_def] <;> linarith

/-- C4: with a current state set and a valid player move, the
`calculate_bot_move` call succeeds, and the bot move it returns is the
cyclic counter of the argmax of the current row of the matrix as it was
before the update — the prediction happens strictly before the model
learns the player's move.  `argmax3` picks the lowest index among
ties. -/
theorem c4_predict_before_update (g : RPSGame) (pm : RPSMove) (s : Fin 3)
    (hs : g.bot.state = some s) (i : Fin 3)
    (hpm : stateIndex? pm.value = some i) :
    (∀ bm g1, calculate_bot_move g pm = .ok (bm, g1) →
      bm = moveOfValue (stateName (argmax3 (g.bot.transitions s) + 1))) ∧
    (calculate_bot_move g pm).isOk = true ∧
    (∀ v : Fin 3 → ℚ, (∀ j, v j ≤ v (argmax3 v)) ∧
      (∀ j, j < argmax3 v → v j < v (argmax3 v))) := by
  unfold calculate_bot_move predict update_transitions
  simp only [hs, hpm]
  refine ⟨?_, rfl, fun v => ⟨argmax3_le v, argmax3_first v⟩⟩
  intro bm g1 h
  simp only [Except.ok.injEq, Prod.mk.injEq] at h
  exact h.1.symm

/-- C4 witness: the theorem at the concrete position `gA` (bot anchored
at R over `mat0`) with player move ROCK, every argument instantiated. -/
theorem c4_predict_before_update_witness :
    bmA = moveOfValue (stateName (argmax3 (gA.bot.transitions 0) + 1)) ∧
    (calculate_bot_move gA .ROCK).isOk = true ∧
    mat0 0 1 ≤ mat0 0 (argmax3 (mat0 0)) := by
  have h := c4_predict_before_update gA .ROCK 0 rfl 0 (by decide)
  exact ⟨h.1 bmA gA1 (by with_unfolding_all decide), h.2.1,
    (h.2.2 (mat0 0)).1 1⟩

/-! ### Claim C5 -/

/-- C5: WIN adds one to the player and floors the bot's decrement at 0,
LOSS is symmetric, TIE leaves both scores alone, the turn counter
always advances by exactly 1, and non-negative scores stay
non-negative. -/
theorem c5_update_score (st : GameState) (rr : RoundResult) :
    (rr = .WIN → (update_score st rr).player_score = st.player_score + 1 ∧
      (update_score st rr).bot_score = max 0 (st.bot_score - 1)) ∧
    (rr = .LOSS →
      (update_score st rr).player_score = max 0 (st.player_score - 1) ∧
      (update_score st rr).bot_score = st.bot_score + 1) ∧
    (rr = .TIE → (update_score st rr).player_score = st.player_score ∧
      (update_score st rr).bot_score = st.bot_score) ∧
    (update_score st rr).turn = st.turn + 1 ∧
    (0 ≤ st.player_score → 0 ≤ st.bot_score →
      0 ≤ (update_score st rr).player_score ∧
      0 ≤ (update_score st rr).bot_score) := by
  unfold update_score
  cases rr <;> simp_all <;> omega

/-- C5 witness: the theorem at the fresh game state with a WIN round,
every hypothesis discharged: the player moves to 1, the bot's decrement
is floored at 0, the turn advances to 2. -/
theorem c5_update_score_witness :
    (update_score {} .WIN).player_score = 1 ∧
    (update_score {} .WIN).bot_score = 0 ∧
    (update_score {} .WIN).turn = 2 ∧
    0 ≤ (update_score {} .WIN).player_score := by
  have h := c5_update_score {} .WIN
  exact ⟨(h.1 rfl).1.trans (by with_unfolding_all decide),
    (h.1 rfl).2.trans (by with_unfolding_all decide),
    h.2.2.2.1.trans (by with_unfolding_all decide),
    (h.2.2.2.2 (by decide) (by decide)).1⟩

/-! ### Claim C9 -/

/-- C9: resolution is TIE exactly on equal valid moves, antisymmetric
on distinct ones, and WIN is characterized by the cyclic beats
relation. -/
theorem c9_resolve (a b : RPSMove) (ha : a ≠ .NONE) (hb : b ≠ .NONE) :
    get_move_result a a = .TIE ∧
    (get_move_result a b = .WIN → get_move_result b a = .LOSS) ∧
    (get_move_result a b = .WIN ↔
      (a = .ROCK ∧ b = .SCISSORS) ∨ (a = .SCISSORS ∧ b = .PAPER) ∨
      (a = .PAPER ∧ b = .ROCK)) := by
  cases a <;> cases b <;> decide

/-- C9 witness: the theorem at ROCK versus SCISSORS, with the
antisymmetry hypothesis discharged by evaluation. -/
theorem c9_resolve_witness :
    get_move_result .ROCK .ROCK = .TIE ∧
    get_move_result .SCISSORS .ROCK = .LOSS := by
  have h := c9_resolve .ROCK .SCISSORS (by decide) (by decide)
  exact ⟨h.1, h.2.1 (by decide)⟩

/-! ### Claim C10 -/

/-- C10: `get_last_round` has no record to return on an empty history —
immediately after construction or restart the total embedding yields
`none` — and otherwise returns the most recently appended record. -/
theorem c10_get_last_round (st st2 : GameState) (pm bm : RPSMove)
    (rr : RoundResult) (g : RPSGame) (t : Fin 3 → Fin 3 → ℚ)
    (h : st.history = []) :
    get_last_round st = none ∧
    get_last_round (add_to_history st2 pm bm rr) = some (pm, bm, rr) ∧
    get_last_round (restart_game g).state = none ∧
    get_last_round (mkGame t).state = none := by
  refine ⟨?_, ?_, rfl, rfl⟩
  · unfold get_last_round
    rw [h]
    rfl
  · unfold get_last_round add_to_history
    simp

/-- C10 witness: the theorem at the fresh game state and a concrete
appended record. -/
theorem c10_get_last_round_witness :
    get_last_round {} = none ∧
    get_last_round (add_to_history {} .ROCK .PAPER .LOSS)
      = some (.ROCK, .PAPER, .LOSS) ∧
    get_last_round (restart_game gA).state = none ∧
    get_last_round (mkGame mat0).state = none :=
  c10_get_last_round {} {} .ROCK .PAPER .LOSS gA mat0 rfl

/-! ### Claim C7 -/

/-- C7, counterexample to the claim as stated: the two-row source
"1 2 3\n4 5 6" does not parse into 3 rows of 3, yet `load_weights`
raises nothing and happily replaces the matrix with the 2×3 table —
the source performs no shape validation at all. -/
theorem c7_counterexample : ¬ ClaimC7 := by
  intro hc
  have hld : loadtxt? "1 2 3\n4 5 6"
      = some [[1, 2, 3], [4, 5, 6]] := by with_unfolding_all decide
  have hnot : ¬ parses3x3 "1 2 3\n4 5 6" := by
    rintro ⟨t, ht, hlen, -⟩
    rw [hld] at ht
    simp only [Option.some.injEq] at ht
    rw [← ht] at hlen
    exact absurd hlen (by decide)
  have hsome := (hc "1 2 3\n4 5 6" [[1]] hnot).1
  have hlw : (load_weights "1 2 3\n4 5 6" [[(1 : ℚ)]]).1 = none := by
    unfold load_weights
    rw [hld]
  rw [hlw] at hsome
  exact absurd hsome (by decide)

/-- C7 amended: `load_weights` checks nothing about the shape — any
source `np.loadtxt` parses (a whitespace-separated float table with
uniform row lengths) replaces the matrix without error, whatever its
shape — but a source that fails to parse raises, and a failing
load leaves the prior in-memory matrix untouched. -/
theorem c7_load_weights (src : String) (m : List (List ℚ)) :
    (loadtxt? src = none → load_weights src m = (some (), m)) ∧
    (∀ t, loadtxt? src = some t → load_weights src m = (none, t)) := by
  unfold load_weights
  constructor
  · intro h
    rw [h]
  · intro t h
    rw [h]

/-- C7 witness: importing the unparsable source "x" over the matrix
`[[2]]` fails and keeps the matrix. -/
theorem c7_load_weights_witness :
    load_weights "x" [[2]] = (some (), [[2]]) :=
  (c7_load_weights "x" [[2]]).1 (by with_unfolding_all decide)

/-! ### Claim C8 -/

/-- C8: a symbol outside the closed set {R, P, S} makes
`update_transitions` raise the invalid-state error — in this embedding
the error result carries no updated bot or game state, mirroring that
the source raises before assigning anything — hence `move` on NONE is
rejected (provided the prediction itself does not fail first, which it
cannot once a state is anchored), and the three valid symbols never
raise it. -/
theorem c8_invalid_symbol (mv : String) (bot : RPSBot) (g : RPSGame)
    (hmv : ¬ mv ∈ (["R", "P", "S"] : List String)) :
    update_transitions mv bot = .error .invalidState ∧
    ((predict g.bot).isOk = true → move g .NONE = .error .invalidState) ∧
    (∀ mv2 ∈ (["R", "P", "S"] : List String),
      (update_transitions mv2 bot).isOk = true) := by
  simp only [List.mem_cons, List.not_mem_nil, or_false, not_or] at hmv
  obtain ⟨h1, h2, h3⟩ := hmv
  refine ⟨?_, ?_, ?_⟩
  · unfold update_transitions stateIndex?
    rw [if_neg h1, if_neg h2, if_neg h3]
  · intro hp
    unfold move calculate_bot_move
    cases hpred : predict g.bot with
    | error e =>
      rw [hpred] at hp
      exact absurd hp (by simp [Except.isOk, Except.toBool])
    | ok bms =>
      have hnone : update_transitions RPSMove.NONE.value g.bot
          = .error .invalidState := rfl
      rw [hnone]
  · intro mv2 hmv2
    simp only [List.mem_cons, List.not_mem_nil, or_false] at hmv2
    have hsome : stateIndex? mv2 = some 0 ∨ stateIndex? mv2 = some 1
        ∨ stateIndex? mv2 = some 2 := by
      rcases hmv2 with h | h | h <;> rw [h] <;> simp [stateIndex?]
    unfold update_transitions
    rcases hsome with h | h | h <;> rw [h] <;> cases bot.state <;> rfl

/-- C8 witness: the symbol "X" is rejected by `update_transitions`,
`move` on NONE from `gA` is rejected, and "R" is accepted. -/
theorem c8_invalid_symbol_witness :
    update_transitions "X" botB = .error .invalidState ∧
    move gA .NONE = .error .invalidState ∧
    (update_transitions "R" botB).isOk = true := by
  have h := c8_invalid_symbol "X" botB gA (by decide)
  exact ⟨h.1, h.2.1 (by with_unfolding_all decide), h.2.2 "R" (by decide)⟩

end RPS
